import Mathlib

/-!
Shallow embedding of the device-bound, audience-scoped authentication core of
the h4ckath0n fullstack template: channel-audience token verification with its
three transport adapters, the device registry revoke invariant, the client-side
key/identity lifecycle, the token minter/cache, the API-client auth middleware
(src/unnamed/part_001), and the Settings revoke-failure classifier
(src/unnamed/part_000).
-/

namespace H4ckath0n

/-- Transport channels: the closed audience set of the protocol. -/
inductive Audience
  | http
  | ws
  | sse
deriving DecidableEq

/-- Wire name of a transport channel. -/
def Audience.channelName : Audience → String
  | .http => "http"
  | .ws => "ws"
  | .sse => "sse"

/-- Audience claim string for a channel: the fixed namespace plus the channel
name, as observed on the wire in the e2e suite (for example "h4ckath0n:http"). -/
def audOf (a : Audience) : String := "h4ckath0n:" ++ a.channelName

/-- Splitting of a character list at every dot, the way JavaScript
"s".split(".") does: one (possibly empty) segment per gap. -/
def splitDotAux : List Char → List (List Char)
  | [] => [[]]
  | c :: rest =>
    match splitDotAux rest with
    | [] => [[]]
    | s :: ss => if c = '.' then [] :: s :: ss else (c :: s) :: ss

/-- Dot-separated segments of a token string. -/
def splitDots (s : String) : List String :=
  (splitDotAux s.data).map List.asString

/-- Token header as carried in the first wire segment. -/
structure TokenHeader where
  alg : String
  typ : String
  kid : String
deriving DecidableEq

/-- Token payload as carried in the second wire segment; the aud claim may be
absent (the verifier must then reject). -/
structure TokenPayload where
  sub : String
  iat : Int
  exp : Int
  aud : Option String
deriving DecidableEq

/-- Claims returned by a successful verification. -/
structure Claims where
  sub : String
  deviceId : String
deriving DecidableEq

/-- Internal verification failure reasons of the channel verifier. -/
inductive VerifyError
  | MALFORMED
  | UNKNOWN_KEY
  | BAD_SIGNATURE
  | MISSING_AUD
  | AUD_MISMATCH
  | EXPIRED
deriving DecidableEq

/-- Modelled from the spec: the server-side verification environment of the
channel verifier, whose implementation is not under src/. It bundles the
base64url/JSON segment decoders, the Device Registry lookup, the signature
check over the signed byte sequence, and the clock with its skew tolerance. -/
structure VerifyEnv where
  decodeHeader : String → Option TokenHeader
  decodePayload : String → Option TokenPayload
  lookup : String → Option String
  sigOk : String → String → String → Bool
  now : Int
  skew : Int

/-- Modelled from the spec: the single verification core
verify(token, expectedAudience), steps 1-7 in order, short-circuiting on the
first failure (3-segment split, segment decoding, registry lookup of
header.kid, signature over header.payload, aud presence, exact aud equality
with the namespaced expected audience, time window [iat - skew, exp]). -/
def verify (env : VerifyEnv) (token : String) (expectedAudience : Audience) :
    Except VerifyError Claims :=
  match splitDots token with
  | [hs, ps, ss] =>
    match env.decodeHeader hs, env.decodePayload ps with
    | some hdr, some pl =>
      match env.lookup hdr.kid with
      | none => .error .UNKNOWN_KEY
      | some pk =>
        if env.sigOk pk (hs ++ "." ++ ps) ss then
          match pl.aud with
          | none => .error .MISSING_AUD
          | some a =>
            if a = audOf expectedAudience then
              if env.now ≥ pl.iat - env.skew ∧ env.now ≤ pl.exp then
                .ok { sub := pl.sub, deviceId := hdr.kid }
              else .error .EXPIRED
            else .error .AUD_MISMATCH
        else .error .BAD_SIGNATURE
    | _, _ => .error .MALFORMED
  | _ => .error .MALFORMED

/-- Wire-visible HTTP/SSE response. -/
structure WireResponse where
  status : Nat
  body : String
deriving DecidableEq

/-- The one opaque rejection shared by the HTTP and SSE adapters: a 401 with
no reason detail. -/
def uniform401 : WireResponse := { status := 401, body := "Unauthorized" }

/-- WebSocket policy-violation close code used on rejected handshakes. -/
def policyViolationClose : Nat := 1008

/-- Modelled from the spec: the HTTP adapter at the extractToken boundary. The
input is the token extracted from the Authorization header (none when the
header is absent); every failure collapses to the uniform 401. -/
def httpAdapter (env : VerifyEnv) (tok? : Option String) :
    Except WireResponse Claims :=
  match tok? with
  | none => .error uniform401
  | some t =>
    match verify env t .http with
    | .ok c => .ok c
    | .error _ => .error uniform401

/-- Modelled from the spec: the SSE adapter; the token travels in the request
header like HTTP, verification happens before any stream byte is emitted, and
every failure collapses to the same uniform 401. -/
def sseAdapter (env : VerifyEnv) (tok? : Option String) :
    Except WireResponse Claims :=
  match tok? with
  | none => .error uniform401
  | some t =>
    match verify env t .sse with
    | .ok c => .ok c
    | .error _ => .error uniform401

/-- Wire-visible outcome of a WebSocket handshake. -/
inductive WsOutcome
  | accepted (c : Claims)
  | closed (code : Nat)
deriving DecidableEq

/-- Modelled from the spec: the WebSocket adapter; the token travels in a query
parameter of the upgrade request, and every failure yields the same generic
policy-violation close (1006/1008 on the client side of the e2e suite). -/
def wsAdapter (env : VerifyEnv) (tok? : Option String) : WsOutcome :=
  match tok? with
  | none => .closed policyViolationClose
  | some t =>
    match verify env t .ws with
    | .ok c => .accepted c
    | .error _ => .closed policyViolationClose

/-- Server-side passkey record owned by the Device Registry. -/
structure PasskeyRecord where
  id : String
  userId : String
  publicKey : String
  label : String
  created_at : Int
  last_used_at : Option Int
  revoked_at : Option Int
deriving DecidableEq

/-- Registry mutation errors surfaced with a specific code. -/
inductive RegistryError
  | DUPLICATE_DEVICE
  | NOT_FOUND
  | LAST_PASSKEY
deriving DecidableEq

/-- Non-revoked records of one user in a registry state. -/
def activeFor (reg : List PasskeyRecord) (userId : String) : List PasskeyRecord :=
  reg.filter fun r => r.userId == userId && r.revoked_at == none

/-- Modelled from the spec: Device Registry revoke(id). It sets revoked_at,
fails NOT_FOUND when id is unknown, and fails LAST_PASSKEY when the operation
would leave the owning user with zero non-revoked records. -/
def revoke (reg : List PasskeyRecord) (id : String) (now : Int) :
    Except RegistryError (List PasskeyRecord) :=
  match reg.find? (fun r => r.id == id) with
  | none => .error .NOT_FOUND
  | some r =>
    if (activeFor reg r.userId).filter (fun x => x.id != id) = [] then
      .error .LAST_PASSKEY
    else
      .ok (reg.map fun x =>
        if x.id == id then { x with revoked_at := some now } else x)

/-- Client-side key pair: an opaque signing handle plus the exportable public
half. -/
structure KeyPair where
  handle : Nat
  publicKey : String
deriving DecidableEq

/-- Session-scoped binding of a device key to an authenticated user. -/
structure DeviceIdentity where
  deviceId : String
  userId : String
deriving DecidableEq

/-- Client-side state: durable key material plus the session-level identity
binding. -/
structure ClientState where
  keyMaterial : Option KeyPair
  identity : Option DeviceIdentity
deriving DecidableEq

/-- Modelled from the spec: the deterministic, collision-resistant digest of
the public key encoding, carrying the "d" type-tag observed in the e2e suite;
the hash of the encoding stands in for the cryptographic digest. -/
def deviceIdOf (publicKey : String) : String := "d" ++ toString publicKey.hash

/-- Modelled from the spec: Key Store ensureKeyMaterial(); returns the existing
key material when present, otherwise persists the freshly generated pair
before returning it. -/
def ensureKeyMaterial (fresh : KeyPair) (s : ClientState) : KeyPair × ClientState :=
  match s.keyMaterial with
  | some km => (km, s)
  | none => (fresh, { s with keyMaterial := some fresh })

/-- Modelled from the spec: Identity Manager bindIdentity(userId); computes
deviceId from the current public key (through ensureKeyMaterial) and records
the active binding. -/
def bindIdentity (fresh : KeyPair) (userId : String) (s : ClientState) : ClientState :=
  let r := ensureKeyMaterial fresh s
  { r.2 with identity := some { deviceId := deviceIdOf r.1.publicKey, userId := userId } }

/-- Modelled from the spec: Identity Manager clearIdentity(); removes only the
session binding and never touches the Key Store. -/
def clearIdentity (s : ClientState) : ClientState := { s with identity := none }

/-- Identity Manager getDeviceIdentity(). -/
def getDeviceIdentity (s : ClientState) : Option DeviceIdentity := s.identity

/-- Modelled from the spec: a signing operation through the Key Store's opaque
handle; it succeeds exactly when key material is present. -/
def signMessage (s : ClientState) (msg : String) : Option String :=
  s.keyMaterial.map fun km => "sig:" ++ toString km.handle ++ ":" ++ msg

/-- Modelled from the spec: the client-side minting environment (segment
encoders, the opaque signing operation, configured token TTL). -/
structure MintEnv where
  encodeHeader : TokenHeader → String
  encodePayload : TokenPayload → String
  sign : String → String
  ttl : Int

/-- Header built by the minter: fixed algorithm and type, kid = deviceId. -/
def mintHeader (idt : DeviceIdentity) : TokenHeader :=
  { alg := "ES256", typ := "JWT", kid := idt.deviceId }

/-- Payload built by the minter: sub, iat = now, exp = now + TTL, namespaced
audience. -/
def mintPayload (me : MintEnv) (idt : DeviceIdentity) (now : Int) (a : Audience) :
    TokenPayload :=
  { sub := idt.userId, iat := now, exp := now + me.ttl, aud := some (audOf a) }

/-- Byte sequence that gets signed: encoded header, dot, encoded payload. -/
def signingInput (me : MintEnv) (idt : DeviceIdentity) (now : Int) (a : Audience) :
    String :=
  me.encodeHeader (mintHeader idt) ++ "." ++ me.encodePayload (mintPayload me idt now a)

/-- Modelled from the spec: the three-segment wire token produced by the
minter: signing input plus dot plus its signature. -/
def mintWire (me : MintEnv) (idt : DeviceIdentity) (now : Int) (a : Audience) :
    String :=
  signingInput me idt now a ++ "." ++ me.sign (signingInput me idt now a)

/-- A cached short-lived token together with its expiry. -/
structure CachedToken where
  token : String
  exp : Int
deriving DecidableEq

/-- Client-side minter state: the identity-manager state, the per-audience
token cache, and a counter of signing operations performed. -/
structure MintState where
  client : ClientState
  cache : List (Audience × CachedToken)
  signCount : Nat
deriving DecidableEq

/-- Cache lookup keyed by audience. -/
def cacheLookup (cache : List (Audience × CachedToken)) (a : Audience) :
    Option CachedToken :=
  (cache.find? fun p => p.1 == a).map fun p => p.2

/-- Client-side minting errors. -/
inductive MintError
  | NOT_AUTHENTICATED
  | NOT_INITIALIZED
deriving DecidableEq

/-- Modelled from the spec: the cache-miss path of the minter; it requires a
bound identity (NOT_AUTHENTICATED otherwise, with the state untouched), signs
through the Key Store, and caches the result keyed by the audience. -/
def mintFresh (me : MintEnv) (now : Int) (a : Audience) (st : MintState) :
    Except MintError String × MintState :=
  match getDeviceIdentity st.client with
  | none => (.error .NOT_AUTHENTICATED, st)
  | some idt =>
    match st.client.keyMaterial with
    | none => (.error .NOT_INITIALIZED, st)
    | some _ =>
      (.ok (mintWire me idt now a),
       { st with
         cache := (a, { token := mintWire me idt now a, exp := now + me.ttl }) ::
           st.cache.filter fun p => p.1 != a,
         signCount := st.signCount + 1 })

/-- Modelled from the spec: getOrMintToken(audience); returns the cached token
for the audience when it is not expired (with a clock-skew safety margin
before exp), otherwise mints afresh. -/
def getOrMintToken (me : MintEnv) (margin now : Int) (a : Audience) (st : MintState) :
    Except MintError String × MintState :=
  match cacheLookup st.cache a with
  | some ct => if now + margin < ct.exp then (.ok ct.token, st) else mintFresh me now a st
  | none => mintFresh me now a st

/-- Modelled from the spec: clearCachedToken(audience?); invalidates the one
cached token of the given audience, or all cached tokens when no audience is
given. -/
def clearCachedToken (aud? : Option Audience) (st : MintState) : MintState :=
  match aud? with
  | none => { st with cache := [] }
  | some a => { st with cache := st.cache.filter fun p => p.1 != a }

/-- Embeds authMiddleware.onResponse of the typed API client: on a 401 the
cached token is cleared with no audience argument; any other response leaves
the state alone. -/
def onResponse (status : Nat) (st : MintState) : MintState :=
  if status = 401 then clearCachedToken none st else st

/-- Embeds authMiddleware.onRequest of the typed API client: requires a bound
device identity, then attaches a Bearer token minted for the http audience. -/
def authOnRequest (me : MintEnv) (margin now : Int) (st : MintState) :
    Except MintError (String × MintState) :=
  match getDeviceIdentity st.client with
  | none => .error .NOT_AUTHENTICATED
  | some _ =>
    match getOrMintToken me margin now .http st with
    | (.ok t, st') => .ok ("Bearer " ++ t, st')
    | (.error e, _) => .error e

/-- JavaScript String.prototype.includes on character lists. -/
def hasSubstrList : List Char → List Char → Bool
  | n, [] => n.isEmpty
  | n, c :: rest => n.isPrefixOf (c :: rest) || hasSubstrList n rest

/-- hasSubstr hay needle: the needle occurs contiguously inside the hay. -/
def hasSubstr (hay needle : String) : Bool :=
  hasSubstrList needle.toList hay.toList

/-- Detail field of a failed revoke response body: either a string or an
object with optional code and message, as destructured in the Settings page. -/
inductive RevokeDetail
  | str (s : String)
  | obj (code : Option String) (message : Option String)
deriving DecidableEq

/-- Body of a failed revoke response as read by the Settings revoke handler. -/
structure RevokeErrorBody where
  error : Option String
  detail : Option RevokeDetail
deriving DecidableEq

/-- Embeds the three-shape LAST_PASSKEY test of revokeMutation.mutationFn: a
top-level error field equal to "LAST_PASSKEY", a string detail containing
"LAST_PASSKEY", or an object detail whose code equals "LAST_PASSKEY". -/
def matchesLastPasskeyShape (b : RevokeErrorBody) : Bool :=
  b.error == some "LAST_PASSKEY" ||
  (match b.detail with
   | some (.str s) => hasSubstr s "LAST_PASSKEY"
   | some (.obj code _) => code == some "LAST_PASSKEY"
   | none => false)

/-- Embeds the Error message thrown by revokeMutation.mutationFn: the literal
"LAST_PASSKEY" when the three-shape test matches, otherwise the string detail
itself, or the object detail's message with "Revoke failed" replacing an
absent or empty message. -/
def thrownMessage (b : RevokeErrorBody) : String :=
  if matchesLastPasskeyShape b then "LAST_PASSKEY"
  else
    match b.detail with
    | some (.str s) => s
    | some (.obj _ (some m)) => if m = "" then "Revoke failed" else m
    | some (.obj _ none) => "Revoke failed"
    | none => "Revoke failed"

/-- What the Settings page displays after a failed revoke. -/
inductive RevokeDisplay
  | lastPasskeyWarning
  | genericError (msg : String)
deriving DecidableEq

/-- Embeds revokeMutation.onError: the dedicated last-passkey warning exactly
when the thrown Error's message is the literal "LAST_PASSKEY", otherwise the
generic error message. -/
def handleRevokeFailure (b : RevokeErrorBody) : RevokeDisplay :=
  if thrownMessage b = "LAST_PASSKEY" then .lastPasskeyWarning
  else .genericError (thrownMessage b)

/-- Object detail whose message field is exactly "LAST_PASSKEY": the one extra
shape that also steers the handler to the dedicated warning. -/
def detailMessageIsLastPasskey (b : RevokeErrorBody) : Bool :=
  match b.detail with
  | some (.obj _ msg) => msg == some "LAST_PASSKEY"
  | _ => false

/-- Concrete minting environment used by the evaluation theorems. -/
def meW : MintEnv :=
  { encodeHeader := fun _ => "HH"
    encodePayload := fun _ => "PP"
    sign := fun _ => "SS"
    ttl := 900 }

/-- Concrete device identity used by the evaluation theorems. -/
def idW : DeviceIdentity := { deviceId := "d1", userId := "u1" }

/-- Concrete verification environment consistent with meW and idW. -/
def envW : VerifyEnv :=
  { decodeHeader := fun s => if s = "HH" then some (mintHeader idW) else none
    decodePayload := fun s => if s = "PP" then some (mintPayload meW idW 0 .http) else none
    lookup := fun k => if k = "d1" then some "pkW" else none
    sigOk := fun pk inp sg => pk == "pkW" && inp == "HH.PP" && sg == "SS"
    now := 0
    skew := 60 }

/-- Variant of envW whose registry resolves no key at all. -/
def envNoKey : VerifyEnv :=
  { envW with lookup := fun _ => none }

end H4ckath0n

namespace H4ckath0n

theorem audOf_injective {a b : Audience} (h : audOf a = audOf b) : a = b := by
  cases a <;> cases b <;> first | rfl | exact absurd h (by decide)

theorem verify_ok_aud (env : VerifyEnv) (tok : String) (ea : Audience)
    (hs ps ss : String) (pl : TokenPayload) (c : Claims)
    (hsp : splitDots tok = [hs, ps, ss])
    (hdp : env.decodePayload ps = some pl)
    (hv : verify env tok ea = .ok c) :
    pl.aud = some (audOf ea) := by
  unfold verify at hv
  rw [hsp] at hv
  dsimp only at hv
  cases hdh : env.decodeHeader hs with
  | none => rw [hdh] at hv; simp at hv
  | some hdr =>
    rw [hdh, hdp] at hv
    dsimp only at hv
    cases hlk : env.lookup hdr.kid with
    | none => rw [hlk] at hv; simp at hv
    | some pk =>
      rw [hlk] at hv
      dsimp only at hv
      by_cases hsg : env.sigOk pk (hs ++ "." ++ ps) ss = true
      · rw [if_pos hsg] at hv
        cases haud : pl.aud with
        | none => rw [haud] at hv; simp at hv
        | some av =>
          rw [haud] at hv
          dsimp only at hv
          by_cases hA : av = audOf ea
          · exact congrArg some hA
          · rw [if_neg hA] at hv; simp at hv
      · rw [if_neg hsg] at hv; simp at hv


/-- C1: cross-audience tokens are rejected with AUD_MISMATCH, and verification
succeeds only when the decoded aud claim equals the namespaced expected
audience exactly. -/
theorem aud_binding_rejects_cross_channel
    (me : MintEnv) (env : VerifyEnv) (idt : DeviceIdentity) (now : Int)
    (a b : Audience) (pk : String)
    (hsplit : splitDots (mintWire me idt now a) =
      [me.encodeHeader (mintHeader idt), me.encodePayload (mintPayload me idt now a),
       me.sign (signingInput me idt now a)])
    (hdh : env.decodeHeader (me.encodeHeader (mintHeader idt)) = some (mintHeader idt))
    (hdp : env.decodePayload (me.encodePayload (mintPayload me idt now a)) =
      some (mintPayload me idt now a))
    (hreg : env.lookup idt.deviceId = some pk)
    (hsig : env.sigOk pk (signingInput me idt now a)
      (me.sign (signingInput me idt now a)) = true) :
    (a ≠ b → verify env (mintWire me idt now a) b = .error .AUD_MISMATCH) ∧
    (∀ tok ea hs ps ss pl c, splitDots tok = [hs, ps, ss] →
      env.decodePayload ps = some pl → verify env tok ea = .ok c →
      pl.aud = some (audOf ea)) := by
  constructor
  · intro hne
    have hAne : audOf a ≠ audOf b := fun h => hne (audOf_injective h)
    unfold verify
    rw [hsplit]
    dsimp only
    rw [hdh, hdp]
    dsimp only
    rw [show (mintHeader idt).kid = idt.deviceId from rfl, hreg]
    dsimp only
    rw [show me.encodeHeader (mintHeader idt) ++ "." ++
      me.encodePayload (mintPayload me idt now a) = signingInput me idt now a from rfl]
    rw [if_pos hsig]
    rw [show (mintPayload me idt now a).aud = some (audOf a) from rfl]
    dsimp only
    rw [if_neg hAne]
  · intro tok ea hs ps ss pl c hsp hdp2 hv
    exact verify_ok_aud env tok ea hs ps ss pl c hsp hdp2 hv


/-- C1 witness: with the concrete environment, an http-audience token is
rejected for the ws channel with AUD_MISMATCH. -/
theorem aud_binding_rejects_cross_channel_check :
    verify envW (mintWire meW idW 0 .http) .ws = .error .AUD_MISMATCH := by
  have h := aud_binding_rejects_cross_channel meW envW idW 0 .http .ws "pkW"
    (by decide) (by decide) (by decide) (by decide) (by decide)
  exact h.1 (by decide)


/-- C2: whichever internal reason makes verification fail, and also when the
token is absent, each transport adapter emits one fixed wire-visible
rejection: the uniform 401 for HTTP and SSE, the generic policy-violation
close for WebSocket. -/
theorem adapters_uniform_rejection (env : VerifyEnv) (t : String) (r : VerifyError) :
    (verify env t .http = .error r → httpAdapter env (some t) = .error uniform401) ∧
    (httpAdapter env none = .error uniform401) ∧
    (verify env t .sse = .error r → sseAdapter env (some t) = .error uniform401) ∧
    (sseAdapter env none = .error uniform401) ∧
    (verify env t .ws = .error r → wsAdapter env (some t) = .closed policyViolationClose) ∧
    (wsAdapter env none = .closed policyViolationClose) := by
  refine ⟨?_, rfl, ?_, rfl, ?_, rfl⟩ <;> intro h <;>
    simp [httpAdapter, sseAdapter, wsAdapter, h]

/-- C2 witness: a garbage token is met with the fixed 401 on HTTP and the
fixed policy-violation close on WebSocket. -/
theorem adapters_uniform_rejection_check :
    httpAdapter envW (some "garbage") = .error uniform401 ∧
    wsAdapter envW (some "garbage") = .closed policyViolationClose := by
  have h := adapters_uniform_rejection envW "garbage" .MALFORMED
  exact ⟨h.1 rfl, h.2.2.2.2.1 rfl⟩

/-- C7: a token that does not split into exactly three dot-separated segments
is rejected MALFORMED under every environment, so no registry lookup,
signature check or claims check can influence the outcome. -/
theorem verify_malformed_short_circuit (tok : String)
    (h : (splitDots tok).length ≠ 3) (env : VerifyEnv) (ea : Audience) :
    verify env tok ea = .error .MALFORMED := by
  unfold verify
  cases hsp : splitDots tok with
  | nil => rfl
  | cons x l1 =>
    cases l1 with
    | nil => rfl
    | cons y l2 =>
      cases l2 with
      | nil => rfl
      | cons z l3 =>
        cases l3 with
        | nil => exact absurd (by simp [hsp]) h
        | cons w l4 => rfl

/-- C7 witness: the e2e garbage token with six segments is rejected
MALFORMED. -/
theorem verify_malformed_short_circuit_check :
    verify envW "not.a.valid.jwt.at.all" .http = .error .MALFORMED :=
  verify_malformed_short_circuit "not.a.valid.jwt.at.all" (by decide) envW .http

/-- C8: a well-formed three-segment token with decodable header and payload
whose kid resolves to no registry entry is rejected UNKNOWN_KEY, whatever its
signature and claims. -/
theorem verify_unknown_kid_rejected (env : VerifyEnv) (tok : String) (ea : Audience)
    (hs ps ss : String) (hdr : TokenHeader) (pl : TokenPayload)
    (hsp : splitDots tok = [hs, ps, ss])
    (hdh : env.decodeHeader hs = some hdr)
    (hdp : env.decodePayload ps = some pl)
    (hlk : env.lookup hdr.kid = none) :
    verify env tok ea = .error .UNKNOWN_KEY := by
  unfold verify
  rw [hsp]
  dsimp only
  rw [hdh, hdp]
  dsimp only
  rw [hlk]

/-- C8 witness: under the empty registry, the concrete well-formed token is
rejected UNKNOWN_KEY. -/
theorem verify_unknown_kid_rejected_check :
    verify envNoKey "HH.PP.SS" .http = .error .UNKNOWN_KEY :=
  verify_unknown_kid_rejected envNoKey "HH.PP.SS" .http "HH" "PP" "SS"
    (mintHeader idW) (mintPayload meW idW 0 .http)
    (by decide) (by decide) (by decide) (by decide)


/-- C3: revoke fails NOT_FOUND on an unknown id, fails LAST_PASSKEY when the
found record's owner has no other non-revoked record, and, over id-unique
registry states, never reduces any user's non-revoked set to zero. -/
theorem revoke_preserves_nonzero_active (reg : List PasskeyRecord) (id : String) (now : Int) :
    ((∀ r ∈ reg, r.id ≠ id) → revoke reg id now = .error .NOT_FOUND) ∧
    (∀ r, reg.find? (fun x => x.id == id) = some r →
      (∀ x ∈ activeFor reg r.userId, x.id = id) →
      revoke reg id now = .error .LAST_PASSKEY) ∧
    ((reg.map fun r => r.id).Nodup →
      ∀ reg' u, revoke reg id now = .ok reg' →
        activeFor reg u ≠ [] → activeFor reg' u ≠ []) := by
  refine ⟨?_, ?_, ?_⟩
  · intro hall
    have hf : reg.find? (fun x => x.id == id) = none := by
      rw [List.find?_eq_none]
      intro x hx
      simpa using hall x hx
    unfold revoke
    rw [hf]
  · intro r hf hsole
    unfold revoke
    rw [hf]
    dsimp only
    have hfil : (activeFor reg r.userId).filter (fun x => x.id != id) = [] := by
      rw [List.filter_eq_nil_iff]
      intro x hx
      simp [hsole x hx]
    rw [if_pos hfil]
  · intro hnodup reg' u hok hne
    unfold revoke at hok
    cases hfind : reg.find? (fun x => x.id == id) with
    | none => rw [hfind] at hok; exact absurd hok (by simp)
    | some r =>
      rw [hfind] at hok
      dsimp only at hok
      by_cases hg : (activeFor reg r.userId).filter (fun x => x.id != id) = []
      · rw [if_pos hg] at hok; exact absurd hok (by simp)
      · rw [if_neg hg] at hok
        have hreg' : reg' = reg.map
            (fun x => if x.id == id then { x with revoked_at := some now } else x) := by
          cases hok; rfl
        have hrmem : r ∈ reg := List.mem_of_find?_eq_some hfind
        have hrid : r.id = id := by simpa using List.find?_some hfind
        have hsurv : ∀ y, y ∈ reg → y.id ≠ id → y.userId = u → y.revoked_at = none →
            activeFor reg' u ≠ [] := by
          intro y hyreg hyid hyu hya
          have hfy : (fun x => if x.id == id then { x with revoked_at := some now } else x) y
              = y := by
            simp [beq_iff_eq, hyid]
          have hymem : y ∈ reg' := by
            rw [hreg']
            have hm := List.mem_map_of_mem
              (fun x => if x.id == id then { x with revoked_at := some now } else x) hyreg
            rwa [hfy] at hm
          exact List.ne_nil_of_mem (List.mem_filter.mpr ⟨hymem, by simp [hyu, hya]⟩)
        obtain ⟨x0, hx0⟩ := List.exists_mem_of_ne_nil _ hne
        obtain ⟨hx0reg, hx0p⟩ := List.mem_filter.mp hx0
        obtain ⟨hx0u, hx0a⟩ : x0.userId = u ∧ x0.revoked_at = none := by
          simpa using hx0p
        by_cases hxid : x0.id = id
        · have hx0r : x0 = r :=
            List.inj_on_of_nodup_map hnodup hx0reg hrmem (by rw [hxid, hrid])
          obtain ⟨y, hy⟩ := List.exists_mem_of_ne_nil _ hg
          obtain ⟨hyact, hyidb⟩ := List.mem_filter.mp hy
          obtain ⟨hyreg, hyp⟩ := List.mem_filter.mp hyact
          obtain ⟨hyu, hya⟩ : y.userId = r.userId ∧ y.revoked_at = none := by
            simpa using hyp
          have hyid : y.id ≠ id := by simpa using hyidb
          exact hsurv y hyreg hyid (by rw [hyu, ← hx0r, hx0u]) hya
        · exact hsurv x0 hx0reg hxid hx0u hx0a


/-- C3 witness: NOT_FOUND on an unknown id, LAST_PASSKEY on the sole active
record, and a surviving active record after a permitted revoke. -/
theorem revoke_preserves_nonzero_active_check :
    revoke [⟨"d1", "alice", "pk1", "L", 0, none, none⟩,
      ⟨"d3", "bob", "pk3", "K", 0, none, none⟩] "dX" 5 = .error .NOT_FOUND ∧
    revoke [⟨"d1", "alice", "pk1", "L", 0, none, none⟩,
      ⟨"d3", "bob", "pk3", "K", 0, none, none⟩] "d1" 5 = .error .LAST_PASSKEY ∧
    activeFor [⟨"d1", "alice", "pk1", "L", 0, none, some 5⟩,
      ⟨"d2", "alice", "pk2", "P", 0, none, none⟩] "alice" ≠ [] := by
  refine ⟨?_, ?_, ?_⟩
  · exact (revoke_preserves_nonzero_active
      [⟨"d1", "alice", "pk1", "L", 0, none, none⟩,
       ⟨"d3", "bob", "pk3", "K", 0, none, none⟩] "dX" 5).1 (by decide)
  · exact (revoke_preserves_nonzero_active
      [⟨"d1", "alice", "pk1", "L", 0, none, none⟩,
       ⟨"d3", "bob", "pk3", "K", 0, none, none⟩] "d1" 5).2.1
      ⟨"d1", "alice", "pk1", "L", 0, none, none⟩ rfl (by decide)
  · exact (revoke_preserves_nonzero_active
      [⟨"d1", "alice", "pk1", "L", 0, none, none⟩,
       ⟨"d2", "alice", "pk2", "P", 0, none, none⟩] "d1" 5).2.2 (by decide)
      [⟨"d1", "alice", "pk1", "L", 0, none, some 5⟩,
       ⟨"d2", "alice", "pk2", "P", 0, none, none⟩] "alice" rfl (by decide)


/-- C4: after binding, a logout and a re-binding, the deviceId is the same as
after the first binding, and it is the digest of the stored public key, hence
a deterministic function of the device key. -/
theorem deviceId_stable_across_relogin (s : ClientState) (g1 g2 : KeyPair)
    (u1 u2 : String) :
    (getDeviceIdentity (bindIdentity g2 u2 (clearIdentity (bindIdentity g1 u1 s)))).map
      (fun i => i.deviceId) =
    (getDeviceIdentity (bindIdentity g1 u1 s)).map (fun i => i.deviceId) ∧
    (getDeviceIdentity (bindIdentity g1 u1 s)).map (fun i => i.deviceId) =
      some (deviceIdOf (ensureKeyMaterial g1 s).1.publicKey) := by
  cases hkm : s.keyMaterial <;>
    simp [bindIdentity, ensureKeyMaterial, clearIdentity, getDeviceIdentity, hkm]

/-- C5: logout clears only the session binding; key material and the ability
to sign with it are untouched. -/
theorem clearIdentity_frame (s : ClientState) (km : KeyPair) (m : String)
    (h : s.keyMaterial = some km) :
    getDeviceIdentity (clearIdentity s) = none ∧
    (clearIdentity s).keyMaterial = s.keyMaterial ∧
    (signMessage (clearIdentity s) m).isSome = true ∧
    signMessage (clearIdentity s) m = signMessage s m := by
  simp [clearIdentity, getDeviceIdentity, signMessage, h]

/-- C5 witness: the frame property at a concrete bound client state. -/
theorem clearIdentity_frame_check :
    getDeviceIdentity (clearIdentity ⟨some ⟨1, "pk"⟩, some ⟨"dW", "u1"⟩⟩) = none ∧
    (clearIdentity ⟨some ⟨1, "pk"⟩, some ⟨"dW", "u1"⟩⟩).keyMaterial =
      (ClientState.mk (some ⟨1, "pk"⟩) (some ⟨"dW", "u1"⟩)).keyMaterial ∧
    (signMessage (clearIdentity ⟨some ⟨1, "pk"⟩, some ⟨"dW", "u1"⟩⟩) "m").isSome = true ∧
    signMessage (clearIdentity ⟨some ⟨1, "pk"⟩, some ⟨"dW", "u1"⟩⟩) "m" =
      signMessage ⟨some ⟨1, "pk"⟩, some ⟨"dW", "u1"⟩⟩ "m" :=
  clearIdentity_frame ⟨some ⟨1, "pk"⟩, some ⟨"dW", "u1"⟩⟩ ⟨1, "pk"⟩ "m" rfl

/-- C6: on a cache miss for the audience, minting fails NOT_AUTHENTICATED with
the state untouched when no identity is bound, and otherwise returns a token
signed from the bound identity and caches it under that audience. -/
theorem getOrMintToken_auth_gate (me : MintEnv) (margin now : Int) (a : Audience)
    (st : MintState)
    (hmiss : ∀ ct, cacheLookup st.cache a = some ct → ¬ now + margin < ct.exp) :
    (getDeviceIdentity st.client = none →
      getOrMintToken me margin now a st = (.error .NOT_AUTHENTICATED, st)) ∧
    (∀ idt km, getDeviceIdentity st.client = some idt →
      st.client.keyMaterial = some km →
      getOrMintToken me margin now a st =
        (.ok (mintWire me idt now a),
         { st with
           cache := (a, { token := mintWire me idt now a, exp := now + me.ttl }) ::
             st.cache.filter fun p => p.1 != a,
           signCount := st.signCount + 1 })) := by
  have hmf : getOrMintToken me margin now a st = mintFresh me now a st := by
    unfold getOrMintToken
    cases hc : cacheLookup st.cache a with
    | none => rfl
    | some ct => dsimp only; rw [if_neg (hmiss ct hc)]
  constructor
  · intro hid
    rw [hmf]
    unfold mintFresh
    rw [hid]
  · intro idt km hid hkm
    rw [hmf]
    unfold mintFresh
    rw [hid]
    dsimp only
    rw [hkm]

/-- C6 witness: an empty cache with no identity fails NOT_AUTHENTICATED and
changes nothing; with a bound identity the minted token lands in the cache. -/
theorem getOrMintToken_auth_gate_check :
    getOrMintToken meW 30 0 .http ⟨⟨some ⟨1, "pk"⟩, none⟩, [], 0⟩ =
      (.error .NOT_AUTHENTICATED, ⟨⟨some ⟨1, "pk"⟩, none⟩, [], 0⟩) ∧
    getOrMintToken meW 30 0 .http ⟨⟨some ⟨1, "pk"⟩, some ⟨"dW", "u1"⟩⟩, [], 0⟩ =
      (.ok "HH.PP.SS",
       ⟨⟨some ⟨1, "pk"⟩, some ⟨"dW", "u1"⟩⟩, [(.http, ⟨"HH.PP.SS", 900⟩)], 1⟩) := by
  constructor
  · exact (getOrMintToken_auth_gate meW 30 0 .http ⟨⟨some ⟨1, "pk"⟩, none⟩, [], 0⟩
      (by intro ct hct; simp [cacheLookup] at hct)).1 rfl
  · exact (getOrMintToken_auth_gate meW 30 0 .http
      ⟨⟨some ⟨1, "pk"⟩, some ⟨"dW", "u1"⟩⟩, [], 0⟩
      (by intro ct hct; simp [cacheLookup] at hct)).2 ⟨"dW", "u1"⟩ ⟨1, "pk"⟩ rfl rfl

/-- C9: a 401 response makes the middleware clear the whole token cache, every
audience included; any other status leaves the minter state unchanged. -/
theorem onResponse_cache_invalidation (status : Nat) (st : MintState) :
    (status = 401 → (onResponse status st).cache = [] ∧
      ∀ a, cacheLookup (onResponse status st).cache a = none) ∧
    (status ≠ 401 → onResponse status st = st) := by
  constructor
  · intro h
    subst h
    simp [onResponse, clearCachedToken, cacheLookup]
  · intro h
    simp [onResponse, h]

/-- C9 witness: a populated cache is emptied by a 401 and untouched by a
200. -/
theorem onResponse_cache_invalidation_check :
    (onResponse 401 ⟨⟨none, none⟩, [(.http, ⟨"t", 9⟩)], 0⟩).cache = [] ∧
    onResponse 200 ⟨⟨none, none⟩, [(.http, ⟨"t", 9⟩)], 0⟩ =
      ⟨⟨none, none⟩, [(.http, ⟨"t", 9⟩)], 0⟩ :=
  ⟨((onResponse_cache_invalidation 401 ⟨⟨none, none⟩, [(.http, ⟨"t", 9⟩)], 0⟩).1 rfl).1,
   (onResponse_cache_invalidation 200 ⟨⟨none, none⟩, [(.http, ⟨"t", 9⟩)], 0⟩).2 (by decide)⟩

/-- C10 counterexample: an object detail whose message is exactly
"LAST_PASSKEY" matches none of the three body shapes, yet the handler shows
the dedicated last-passkey warning. -/
theorem revoke_classifier_counterexample :
    handleRevokeFailure ⟨none, some (.obj none (some "LAST_PASSKEY"))⟩ =
      .lastPasskeyWarning ∧
    matchesLastPasskeyShape ⟨none, some (.obj none (some "LAST_PASSKEY"))⟩ = false := by
  decide

/-- C10 amended: the dedicated warning shows exactly when one of the three
body shapes matches, or when an object detail's message field is exactly
"LAST_PASSKEY". -/
theorem revoke_classifier_amended (b : RevokeErrorBody) :
    handleRevokeFailure b = .lastPasskeyWarning ↔
    (matchesLastPasskeyShape b || detailMessageIsLastPasskey b) = true := by
  obtain ⟨err, det⟩ := b
  by_cases he : err = some "LAST_PASSKEY"
  · have hsh : matchesLastPasskeyShape ⟨err, det⟩ = true := by
      simp [matchesLastPasskeyShape, he]
    have ht : thrownMessage ⟨err, det⟩ = "LAST_PASSKEY" := by
      unfold thrownMessage
      rw [if_pos hsh]
    simp [handleRevokeFailure, ht, hsh]
  · rcases det with _ | d
    · have hsh : matchesLastPasskeyShape ⟨err, none⟩ = false := by
        simp [matchesLastPasskeyShape, he]
      have ht : thrownMessage ⟨err, none⟩ = "Revoke failed" := by
        unfold thrownMessage
        rw [if_neg (by simp [hsh])]
      simp [handleRevokeFailure, ht, hsh, detailMessageIsLastPasskey]
    · rcases d with s | ⟨code, msg⟩
      · by_cases hcs : hasSubstr s "LAST_PASSKEY" = true
        · have hsh : matchesLastPasskeyShape ⟨err, some (.str s)⟩ = true := by
            simp [matchesLastPasskeyShape, hcs]
          have ht : thrownMessage ⟨err, some (.str s)⟩ = "LAST_PASSKEY" := by
            unfold thrownMessage
            rw [if_pos hsh]
          simp [handleRevokeFailure, ht, hsh]
        · have hsh : matchesLastPasskeyShape ⟨err, some (.str s)⟩ = false := by
            simp [matchesLastPasskeyShape, he, hcs]
          have hs' : s ≠ "LAST_PASSKEY" := by
            intro h
            rw [h] at hcs
            exact hcs (by decide)
          have ht : thrownMessage ⟨err, some (.str s)⟩ = s := by
            unfold thrownMessage
            rw [if_neg (by simp [hsh])]
          simp [handleRevokeFailure, ht, hsh, detailMessageIsLastPasskey, hs']
      · by_cases hc : code = some "LAST_PASSKEY"
        · have hsh : matchesLastPasskeyShape ⟨err, some (.obj code msg)⟩ = true := by
            simp [matchesLastPasskeyShape, hc]
          have ht : thrownMessage ⟨err, some (.obj code msg)⟩ = "LAST_PASSKEY" := by
            unfold thrownMessage
            rw [if_pos hsh]
          simp [handleRevokeFailure, ht, hsh]
        · have hsh : matchesLastPasskeyShape ⟨err, some (.obj code msg)⟩ = false := by
            simp [matchesLastPasskeyShape, he, hc]
          rcases msg with _ | m
          · have ht : thrownMessage ⟨err, some (.obj code none)⟩ = "Revoke failed" := by
              unfold thrownMessage
              rw [if_neg (by simp [hsh])]
            simp [handleRevokeFailure, ht, hsh, detailMessageIsLastPasskey]
          · by_cases hm : m = "LAST_PASSKEY"
            · subst hm
              have ht : thrownMessage ⟨err, some (.obj code (some "LAST_PASSKEY"))⟩ =
                  "LAST_PASSKEY" := by
                unfold thrownMessage
                rw [if_neg (by simp [hsh])]
                simp
              simp [handleRevokeFailure, ht, hsh, detailMessageIsLastPasskey]
            · by_cases hm0 : m = ""
              · subst hm0
                have ht : thrownMessage ⟨err, some (.obj code (some ""))⟩ =
                    "Revoke failed" := by
                  unfold thrownMessage
                  rw [if_neg (by simp [hsh])]
                  simp
                simp [handleRevokeFailure, ht, hsh, detailMessageIsLastPasskey]
              · have ht : thrownMessage ⟨err, some (.obj code (some m))⟩ = m := by
                  unfold thrownMessage
                  rw [if_neg (by simp [hsh])]
                  simp [hm0]
                simp [handleRevokeFailure, ht, hsh, detailMessageIsLastPasskey, hm]

end H4ckath0n
